import Mathlib

/-!
Verification of the MCP widget-server framework (Chat.js repository).

This file gives a shallow embedding of the framework core — the schema
translator (`zodToJsonSchema`), the metadata compiler (`generateAssetHash`,
`generateWidgetMeta`, `generateWidgetHtml`, the `McpWidgetServer`
constructor), the request router (list/read/call handlers), the session
manager (SSE open/close/error transitions and the POST message endpoint),
and the static asset gateway (path resolution and containment) — and proves
or refutes the design-level claims about them.

Sources embedded: `src/server/src/framework/widget-server.ts` and the
framework `utils.ts` (the copy exporting `generateAssetHash`, the one the
server actually imports). JavaScript `Map`s become association lists with
last-write-wins insertion; `async` handlers become plain functions returning
`Except`; thrown exceptions become `Except.error`; machine-level hashing is
done on `Nat` masked to 32 bits.
-/

/-! ## Zod schema trees

The translator inspects the runtime `_def` representation of a Zod schema:
every node has a `typeName`, an optional `description`, and wrapper nodes
(`ZodOptional`, `ZodNullable`, `ZodDefault`, `ZodEffects`) carry an inner
node. We embed that object graph as an inductive tree. -/

/-- Embedded Zod `_def` tree. Each constructor mirrors one `typeName` the
translator distinguishes; `zodOther` stands for any other base `typeName`
(which the translator maps to the coarse type `"string"`). -/
inductive Zod where
  | zodString (description : Option String)
  | zodNumber (description : Option String)
  | zodBoolean (description : Option String)
  | zodArray (description : Option String)
  | zodObject (description : Option String) (shape : List (String × Zod))
  | zodOptional (description : Option String) (innerType : Zod)
  | zodNullable (description : Option String) (innerType : Zod)
  | zodDefault (description : Option String) (innerType : Zod)
  | zodEffects (description : Option String) (schema : Zod)
  | zodOther (typeName : String) (description : Option String)
deriving Repr

/-- The `description` slot of a `_def` node. -/
def Zod.description : Zod → Option String
  | .zodString d => d
  | .zodNumber d => d
  | .zodBoolean d => d
  | .zodArray d => d
  | .zodObject d _ => d
  | .zodOptional d _ => d
  | .zodNullable d _ => d
  | .zodDefault d _ => d
  | .zodEffects d _ => d
  | .zodOther _ d => d

/-- JavaScript truthiness of an optional string: `undefined` and `""` are
falsy, every other string is truthy. -/
def truthyStr : Option String → Bool
  | none => false
  | some s => !s.isEmpty

/-- One side condition of the unwrap loop: capture a layer's description if
it is truthy and none has been captured yet (`if (fieldDef.description &&
!description) description = fieldDef.description`). -/
def captureDescription (fieldDef : Zod) (description : Option String) : Option String :=
  if truthyStr fieldDef.description && !truthyStr description then fieldDef.description
  else description

/-- The translator's `while (fieldDef)` unwrap loop: peel `ZodOptional` /
`ZodNullable` (setting `isOptional`), `ZodEffects` and `ZodDefault`
(leaving `isOptional` alone), capturing the first truthy description seen,
until a base node remains. Returns (base node, captured description,
isOptional flag). -/
def unwrapField : Zod → Option String → Bool → Zod × Option String × Bool
  | .zodOptional d t, description, _ =>
      unwrapField t (captureDescription (.zodOptional d t) description) true
  | .zodNullable d t, description, _ =>
      unwrapField t (captureDescription (.zodNullable d t) description) true
  | .zodEffects d t, description, isOptional =>
      unwrapField t (captureDescription (.zodEffects d t) description) isOptional
  | .zodDefault d t, description, isOptional =>
      unwrapField t (captureDescription (.zodDefault d t) description) isOptional
  | base, description, isOptional =>
      (base, captureDescription base description, isOptional)

/-- Coarse JSON type of a base node; unrecognized base types map to
`"string"`. -/
def coarseType : Zod → String
  | .zodString _ => "string"
  | .zodNumber _ => "number"
  | .zodBoolean _ => "boolean"
  | .zodArray _ => "array"
  | .zodObject _ _ => "object"
  | _ => "string"

/-- One property of the emitted JSON schema: a coarse `type` and a
`description` that is present only when a truthy one was captured. -/
structure JsonSchemaProp where
  type : String
  description : Option String
deriving DecidableEq, Repr

/-- The JSON-schema-like description the translator emits. `required` is
`none` for the permissive fallback (the source object simply lacks the
key there). -/
structure JsonSchema where
  type : String
  properties : List (String × JsonSchemaProp)
  required : Option (List String)
  additionalProperties : Bool
deriving DecidableEq, Repr

/-- The translator's `for (const [key, value] of Object.entries(shape))`
loop: per field, unwrap, record the property, and append the key to
`required` when the field is not optional. -/
def translateFields : List (String × Zod) → List (String × JsonSchemaProp) × List String
  | [] => ([], [])
  | (key, value) :: rest =>
      let u := unwrapField value none false
      let tail := translateFields rest
      let prop : JsonSchemaProp :=
        { type := coarseType u.1
          description := if truthyStr u.2.1 then u.2.1 else none }
      ((key, prop) :: tail.1, if u.2.2 then tail.2 else key :: tail.2)

/-- Embedding of `zodToJsonSchema` (framework `utils.ts`): a `ZodObject`
becomes `type:"object"` with per-field coarse properties and a `required`
list; anything else degrades to the permissive fallback. -/
def zodToJsonSchema : Zod → JsonSchema
  | .zodObject _ shape =>
      let fields := translateFields shape
      { type := "object"
        properties := fields.1
        required := some fields.2
        additionalProperties := false }
  | _ =>
      { type := "object"
        properties := []
        required := none
        additionalProperties := true }

/-! ## SHA-256 and the asset hash

`generateAssetHash` calls Node's `crypto.createHash("sha256")`. We model
that library call with a full FIPS 180-4 SHA-256 over `Nat` words masked to
32 bits (validated below against the standard test vectors), so that the
asset-hash claims are about the real digest, not an abstract stub. -/

/-- Mask to the low 32 bits. -/
def mask32 (x : Nat) : Nat := x &&& 0xffffffff

/-- 32-bit modular addition. -/
def add32 (a b : Nat) : Nat := mask32 (a + b)

/-- Rotate a 32-bit word right by `n`. -/
def rotr32 (n x : Nat) : Nat := mask32 ((x >>> n) ||| (x <<< (32 - n)))

/-- Message-schedule function sigma0. -/
def smallSigma0 (x : Nat) : Nat := (rotr32 7 x) ^^^ (rotr32 18 x) ^^^ (x >>> 3)

/-- Message-schedule function sigma1. -/
def smallSigma1 (x : Nat) : Nat := (rotr32 17 x) ^^^ (rotr32 19 x) ^^^ (x >>> 10)

/-- Compression function Sigma0. -/
def bigSigma0 (x : Nat) : Nat := (rotr32 2 x) ^^^ (rotr32 13 x) ^^^ (rotr32 22 x)

/-- Compression function Sigma1. -/
def bigSigma1 (x : Nat) : Nat := (rotr32 6 x) ^^^ (rotr32 11 x) ^^^ (rotr32 25 x)

/-- Bitwise choose. -/
def chBits (x y z : Nat) : Nat := (x &&& y) ^^^ ((x ^^^ 0xffffffff) &&& z)

/-- Bitwise majority. -/
def majBits (x y z : Nat) : Nat := (x &&& y) ^^^ (x &&& z) ^^^ (y &&& z)

/-- The 64 SHA-256 round constants (FIPS 180-4 section 4.2.2, written in
decimal). -/
def sha256K : List Nat :=
  [1116352408, 1899447441, 3049323471, 3921009573, 961987163,
   1508970993, 2453635748, 2870763221, 3624381080, 310598401,
   607225278, 1426881987, 1925078388, 2162078206, 2614888103,
   3248222580, 3835390401, 4022224774, 264347078, 604807628,
   770255983, 1249150122, 1555081692, 1996064986, 2554220882,
   2821834349, 2952996808, 3210313671, 3336571891, 3584528711,
   113926993, 338241895, 666307205, 773529912, 1294757372,
   1396182291, 1695183700, 1986661051, 2177026350, 2456956037,
   2730485921, 2820302411, 3259730800, 3345764771, 3516065817,
   3600352804, 4094571909, 275423344, 430227734, 506948616,
   659060556, 883997877, 958139571, 1322822218, 1537002063,
   1747873779, 1955562222, 2024104815, 2227730452, 2361852424,
   2428436474, 2756734187, 3204031479, 3329325298]

/-- The initial SHA-256 hash state (FIPS 180-4 section 5.3.3, in decimal). -/
def sha256InitH : List Nat :=
  [1779033703, 3144134277, 1013904242, 2773480762,
   1359893119, 2600822924, 528734635, 1541459225]

/-- Big-endian byte expansion of a word to `n` bytes. -/
def toBytesBE (n x : Nat) : List Nat :=
  (List.range n).map (fun i => (x >>> (8 * (n - 1 - i))) &&& 0xff)

/-- UTF-8 encoding of one code point (`.update(version, "utf8")`). -/
def utf8EncodeChar (c : Nat) : List Nat :=
  if c < 0x80 then [c]
  else if c < 0x800 then [0xc0 ||| (c >>> 6), 0x80 ||| (c &&& 0x3f)]
  else if c < 0x10000 then
    [0xe0 ||| (c >>> 12), 0x80 ||| ((c >>> 6) &&& 0x3f), 0x80 ||| (c &&& 0x3f)]
  else
    [0xf0 ||| (c >>> 18), 0x80 ||| ((c >>> 12) &&& 0x3f), 0x80 ||| ((c >>> 6) &&& 0x3f),
     0x80 ||| (c &&& 0x3f)]

/-- The UTF-8 bytes of a string. -/
def stringToBytes (s : String) : List Nat :=
  (s.data.map (fun c => utf8EncodeChar c.toNat)).flatten

/-- SHA-256 padding: append `0x80`, zero bytes to 56 mod 64, then the
64-bit big-endian bit length. -/
def padMessage (msg : List Nat) : List Nat :=
  let len := msg.length
  msg ++ [0x80] ++ List.replicate ((119 - len % 64) % 64) 0 ++ toBytesBE 8 (8 * len)

/-- Split into 64-byte chunks, with explicit fuel so the kernel can reduce
it (the fuel `l.length` always suffices). -/
def sha256ChunksAux : Nat → List Nat → List (List Nat)
  | 0, _ => []
  | _, [] => []
  | Nat.succ fuel, l => l.take 64 :: sha256ChunksAux fuel (l.drop 64)

/-- Split a padded message into its 64-byte chunks. -/
def sha256Chunks (l : List Nat) : List (List Nat) := sha256ChunksAux l.length l

/-- Pack bytes into big-endian 32-bit words. -/
def bytesToWords : List Nat → List Nat
  | b0 :: b1 :: b2 :: b3 :: rest =>
      ((b0 <<< 24) ||| (b1 <<< 16) ||| (b2 <<< 8) ||| b3) :: bytesToWords rest
  | _ => []

/-- Extend the message schedule by one word. -/
def scheduleStep (w : List Nat) : List Nat :=
  let n := w.length
  w ++ [add32 (add32 (w.getD (n - 16) 0) (smallSigma1 (w.getD (n - 2) 0)))
              (add32 (w.getD (n - 7) 0) (smallSigma0 (w.getD (n - 15) 0)))]

/-- The full 64-word message schedule from the 16 chunk words. -/
def fullSchedule (w16 : List Nat) : List Nat :=
  (List.range 48).foldl (fun w _ => scheduleStep w) w16

/-- The eight working registers of the compression loop. -/
structure Sha256State where
  a : Nat
  b : Nat
  c : Nat
  d : Nat
  e : Nat
  f : Nat
  g : Nat
  h : Nat

/-- One round of the SHA-256 compression loop. -/
def sha256Round (st : Sha256State) (kw : Nat × Nat) : Sha256State :=
  let t1 := add32 st.h (add32 (bigSigma1 st.e) (add32 (chBits st.e st.f st.g) (add32 kw.1 kw.2)))
  let t2 := add32 (bigSigma0 st.a) (majBits st.a st.b st.c)
  { a := add32 t1 t2, b := st.a, c := st.b, d := st.c,
    e := add32 st.d t1, f := st.e, g := st.f, h := st.g }

/-- Process one 64-byte chunk into the running hash state. -/
def processChunk (hs chunk : List Nat) : List Nat :=
  let w := fullSchedule (bytesToWords chunk)
  let st0 : Sha256State :=
    ⟨hs.getD 0 0, hs.getD 1 0, hs.getD 2 0, hs.getD 3 0,
     hs.getD 4 0, hs.getD 5 0, hs.getD 6 0, hs.getD 7 0⟩
  let st := (sha256K.zip w).foldl sha256Round st0
  [add32 (hs.getD 0 0) st.a, add32 (hs.getD 1 0) st.b, add32 (hs.getD 2 0) st.c,
   add32 (hs.getD 3 0) st.d, add32 (hs.getD 4 0) st.e, add32 (hs.getD 5 0) st.f,
   add32 (hs.getD 6 0) st.g, add32 (hs.getD 7 0) st.h]

/-- The 32 digest bytes of a byte message. -/
def sha256Bytes (msg : List Nat) : List Nat :=
  let hs := (sha256Chunks (padMessage msg)).foldl processChunk sha256InitH
  (hs.map (toBytesBE 4)).flatten

/-- The sixteen lowercase hex digits. -/
def hexCharList : List Char := "0123456789abcdef".data

/-- Hex digit character for a value below 16. -/
def hexDigit (n : Nat) : Char := hexCharList.getD n '0'

/-- Two-character lowercase hex rendering of one byte. -/
def byteToHex (b : Nat) : List Char := [hexDigit (b >>> 4), hexDigit (b &&& 0xf)]

/-- Model of `.digest("hex")`: the 64-character lowercase hex digest of a
string's UTF-8 bytes. -/
def sha256Hex (s : String) : String :=
  ⟨((sha256Bytes (stringToBytes s)).map byteToHex).flatten⟩

/-- Model of JavaScript `.slice(0, 4)` on an ASCII string. -/
def sliceFour (s : String) : String := ⟨s.data.take 4⟩

/-- Embedding of `generateAssetHash` (framework `utils.ts`): the first four
hex characters of the SHA-256 digest of the version string. -/
def generateAssetHash (version : String) : String := sliceFour (sha256Hex version)

/-- Sanity check of the SHA-256 model: the FIPS 180-4 one-block vector. -/
theorem sha256Hex_vector_abc :
    sha256Hex "abc" = "ba7816bf8f01cfea414140de5dae2223b00361a396177a9cb410ff61f20015ad" := by
  decide

/-- Sanity check of the SHA-256 model: the empty-message vector. -/
theorem sha256Hex_vector_empty :
    sha256Hex "" = "e3b0c44298fc1c149afbf4c8996fb92427ae41e4649b934ca495991b7852b855" := by
  decide

/-! ## Widget definitions and compiled metadata

Embedding of `framework/types.ts` and the `McpWidgetServer` constructor.
A Zod schema value has two faces the server uses: its introspectable `_def`
tree (consumed by `zodToJsonSchema`) and its `parse` method (a black-box
validator per the framework contract); we carry both. `schema` and
`handler` are `Option`s because the configuration-error claims are about
definitions that omit them (possible in untyped JavaScript usage). -/

/-- A JSON value, as carried in protocol messages. -/
inductive Json where
  | null
  | bool (b : Bool)
  | num (n : Int)
  | str (s : String)
  | arr (elems : List Json)
  | obj (fields : List (String × Json))

/-- A value in a `_meta` record: the source stores strings and booleans. -/
inductive MetaValue where
  | str (s : String)
  | bool (b : Bool)
deriving DecidableEq, Repr

/-- CSP configuration from the widget definition (`types.ts`). -/
structure Csp where
  connect_domains : Option (List String)
  resource_domains : Option (List String)
deriving DecidableEq, Repr

/-- MCP tool annotations from the widget definition (`types.ts`). -/
structure ToolAnnotations where
  readOnlyHint : Option Bool
  destructiveHint : Option Bool
  openWorldHint : Option Bool
deriving DecidableEq, Repr

/-- The optional `meta` block of a widget definition. -/
structure MetaBlock where
  invoking : Option String
  invoked : Option String
  widgetDescription : Option String
deriving DecidableEq, Repr

/-- Result of an external widget handler: text plus optional data. -/
structure HandlerResult where
  text : String
  data : Option Json

/-- The two faces of a Zod schema value: the `_def` tree the translator
introspects, and the library's `parse` (validate or throw), modelled as a
black-box function into `Except`. -/
structure ZodSchema where
  ast : Zod
  parse : Json → Except String Json

/-- Embedding of `WidgetDefinition` (`types.ts`). The external handler is
modelled synchronously; a throwing or rejecting handler returns
`Except.error`. -/
structure WidgetDefinition where
  component : String
  title : String
  description : Option String
  htmlSrc : Option String
  cssSrc : Option String
  rootElement : Option String
  schema : Option ZodSchema
  handler : Option (Json → Except String HandlerResult)
  meta : Option MetaBlock
  annotations : Option ToolAnnotations
  csp : Option Csp
  widgetDomain : Option String

/-- Embedding of the internal `WidgetMeta` record. -/
structure WidgetMeta where
  component : String
  title : String
  templateUri : String
  html : String
  definition : WidgetDefinition

/-- Embedding of `ServerConfig` (`types.ts`), the fields the claims use. -/
structure ServerConfig where
  name : String
  version : String
  widgets : List WidgetDefinition
  port : Option Nat
  ssePath : Option String
  postPath : Option String
  frontendUrl : Option String

/-- JavaScript `a || b` on an optional string: the default wins when the
left side is `undefined` or `""`. -/
def orDefault : Option String → String → String
  | none, d => d
  | some s, d => if s.isEmpty then d else s

/-- Embedding of `generateWidgetMeta` (framework `utils.ts`). Note the
declared parameter list: `widgetId`, `title`, `invoking`, `invoked`,
`widgetDescription` — nothing else. -/
def generateWidgetMeta (widgetId title : String)
    (invoking invoked widgetDescription : Option String) : List (String × MetaValue) :=
  let templateUri := "ui://widget/" ++ widgetId ++ ".html"
  [("openai/outputTemplate", .str templateUri),
   ("openai/toolInvocation/invoking", .str (orDefault invoking ("Loading " ++ title ++ "..."))),
   ("openai/toolInvocation/invoked", .str (orDefault invoked ("Loaded " ++ title))),
   ("openai/widgetAccessible", .bool true),
   ("openai/resultCanProduceWidget", .bool true)]
  ++ (if truthyStr widgetDescription then
        [("openai/widgetDescription", .str (widgetDescription.getD ""))]
      else [])

/-- The call shape used at every `_meta` call-site in `widget-server.ts`:
`generateWidgetMeta(component, title, invoking, invoked, widgetDescription,
widget.csp, widget.widgetDomain)`. Seven arguments are passed but the
callee declares five parameters, so JavaScript discards the last two; this
wrapper records that discarding explicitly. -/
def generateWidgetMetaCall (widgetId title : String)
    (invoking invoked widgetDescription : Option String)
    (csp : Option Csp) (widgetDomain : Option String) : List (String × MetaValue) :=
  generateWidgetMeta widgetId title invoking invoked widgetDescription

/-- Embedding of `generateWidgetHtml` (framework `utils.ts`): container
div, optional stylesheet link (JavaScript truthiness on `cssSrc`), module
script tag, joined by newlines. -/
def generateWidgetHtml (rootElement htmlSrc : String) (cssSrc : Option String) : String :=
  let parts := ["<div id=\"" ++ rootElement ++ "\"></div>"]
    ++ (if truthyStr cssSrc then
          ["<link rel=\"stylesheet\" href=\"" ++ cssSrc.getD "" ++ "\">"]
        else [])
    ++ ["<script type=\"module\" src=\"" ++ htmlSrc ++ "\"></script>"]
  String.intercalate "\n" parts

/-! ## JavaScript `Map` as an association list -/

/-- `Map.prototype.set`: insert with last-write-wins. -/
def mapSet {α : Type} (m : List (String × α)) (k : String) (v : α) : List (String × α) :=
  (k, v) :: m.filter (fun p => p.1 != k)

/-- `Map.prototype.get`. -/
def mapGet {α : Type} (m : List (String × α)) (k : String) : Option α :=
  (m.find? (fun p => p.1 == k)).map (fun p => p.2)

/-- `Map.prototype.delete`. -/
def mapDelete {α : Type} (m : List (String × α)) (k : String) : List (String × α) :=
  m.filter (fun p => p.1 != k)

/-- `new Map(entries)`: later entries overwrite earlier ones. -/
def jsMap {α : Type} (entries : List (String × α)) : List (String × α) :=
  entries.foldl (fun m kv => mapSet m kv.1 kv.2) []

/-! ## The constructor (metadata compiler) -/

/-- The constructor's widget processing step: default `htmlSrc`, `cssSrc`
and `rootElement` from the component name and asset hash. -/
def processWidget (frontendUrl assetHash : String) (widget : WidgetDefinition) :
    WidgetDefinition :=
  { widget with
      htmlSrc := some (widget.htmlSrc.getD
        (frontendUrl ++ "/" ++ widget.component ++ "-" ++ assetHash ++ ".js")),
      cssSrc := some (widget.cssSrc.getD
        (frontendUrl ++ "/" ++ widget.component ++ "-" ++ assetHash ++ ".css")),
      rootElement := some (widget.rootElement.getD (widget.component ++ "-root")) }

/-- The constructor's per-widget metadata record (`this.widgetMetas`). -/
def buildWidgetMeta (widget : WidgetDefinition) : WidgetMeta :=
  { component := widget.component
    title := widget.title
    templateUri := "ui://widget/" ++ widget.component ++ ".html"
    html := generateWidgetHtml (widget.rootElement.getD "") (widget.htmlSrc.getD "")
      widget.cssSrc
    definition := widget }

/-- `zodToJsonSchema` as invoked from JavaScript on a possibly missing
schema: `(schema as any)._def` on `undefined` throws a `TypeError`. -/
def zodToJsonSchemaJs (schema : Option ZodSchema) : Except String JsonSchema :=
  match schema with
  | none => .error "TypeError: cannot read _def of undefined"
  | some s => .ok (zodToJsonSchema s.ast)

/-- Whether an `Except` computation succeeded. -/
def exceptIsOk {ε α : Type} : Except ε α → Bool
  | .ok _ => true
  | .error _ => false

/-- The constructor's debug loop `for (const meta of this.widgetMetas)`
calling `zodToJsonSchema(meta.definition.schema)` on each entry: the first
missing schema throws out of the constructor. -/
def checkSchemas : List WidgetMeta → Except String Unit
  | [] => .ok ()
  | m :: rest =>
      match zodToJsonSchemaJs m.definition.schema with
      | .error e => .error e
      | .ok _ => checkSchemas rest

/-- Embedding of the `McpWidgetServer` constructor: default the frontend
URL, process the widgets, build the metadata records, then run the debug
loop that calls `zodToJsonSchema` on every widget's schema (which throws —
`Except.error` — on a missing schema). No other validation is performed. -/
def widgetServerInit (config : ServerConfig) : Except String (List WidgetMeta) :=
  let assetHash := generateAssetHash config.version
  let frontendUrl := config.frontendUrl.getD "http://localhost:4444"
  let processedWidgets := config.widgets.map (processWidget frontendUrl assetHash)
  let widgetMetas := processedWidgets.map buildWidgetMeta
  match checkSchemas widgetMetas with
  | .error e => .error e
  | .ok _ => .ok widgetMetas

/-! ## The request router (per-session protocol server)

Embedding of `createMcpServer`'s five request handlers. `_meta` fields are
modelled by a `meta` field; each construction repeats the source's
seven-argument `generateWidgetMeta` call via `generateWidgetMetaCall`. -/

/-- An MCP tool descriptor as built by `widgetToTool`. -/
structure Tool where
  name : String
  description : String
  inputSchema : JsonSchema
  title : String
  annotations : Option ToolAnnotations
  meta : List (String × MetaValue)
deriving DecidableEq, Repr

/-- An MCP resource descriptor as built by `widgetToResource`. -/
structure Resource where
  uri : String
  name : String
  description : String
  mimeType : String
  meta : List (String × MetaValue)
deriving DecidableEq, Repr

/-- An MCP resource-template descriptor as built by
`widgetToResourceTemplate`. -/
structure ResourceTemplate where
  uriTemplate : String
  name : String
  description : String
  mimeType : String
  meta : List (String × MetaValue)
deriving DecidableEq, Repr

/-- Embedding of `widgetToTool`. It calls `zodToJsonSchema` on the widget's
schema, so like the JavaScript it fails (`TypeError`) on a definition with
no schema. -/
def widgetToTool (widgetMeta : WidgetMeta) : Except String Tool :=
  let widget := widgetMeta.definition
  match zodToJsonSchemaJs widget.schema with
  | .error e => .error e
  | .ok inputSchema =>
      .ok
        { name := widget.component
          description := orDefault widget.description widget.title
          inputSchema := inputSchema
          title := widget.title
          annotations := widget.annotations
          meta := generateWidgetMetaCall widget.component widget.title
            (widget.meta.bind MetaBlock.invoking) (widget.meta.bind MetaBlock.invoked)
            (widget.meta.bind MetaBlock.widgetDescription) widget.csp widget.widgetDomain }

/-- Embedding of `widgetToResource`. -/
def widgetToResource (widgetMeta : WidgetMeta) : Resource :=
  let widget := widgetMeta.definition
  { uri := widgetMeta.templateUri
    name := widget.title
    description := orDefault widget.description (widget.title ++ " widget markup")
    mimeType := "text/html+skybridge"
    meta := generateWidgetMetaCall widget.component widget.title
      (widget.meta.bind MetaBlock.invoking) (widget.meta.bind MetaBlock.invoked)
      (widget.meta.bind MetaBlock.widgetDescription) widget.csp widget.widgetDomain }

/-- Embedding of `widgetToResourceTemplate`. -/
def widgetToResourceTemplate (widgetMeta : WidgetMeta) : ResourceTemplate :=
  let widget := widgetMeta.definition
  { uriTemplate := widgetMeta.templateUri
    name := widget.title
    description := orDefault widget.description (widget.title ++ " widget markup")
    mimeType := "text/html+skybridge"
    meta := generateWidgetMetaCall widget.component widget.title
      (widget.meta.bind MetaBlock.invoking) (widget.meta.bind MetaBlock.invoked)
      (widget.meta.bind MetaBlock.widgetDescription) widget.csp widget.widgetDomain }

/-- The router's `widgetsByComponent` lookup map. -/
def widgetsByComponent (widgetMetas : List WidgetMeta) : List (String × WidgetMeta) :=
  jsMap (widgetMetas.map (fun w => (w.component, w)))

/-- The router's `widgetsByUri` lookup map. -/
def widgetsByUri (widgetMetas : List WidgetMeta) : List (String × WidgetMeta) :=
  jsMap (widgetMetas.map (fun w => (w.templateUri, w)))

/-- One entry of a read-resource response's `contents` array. -/
structure ResourceContent where
  uri : String
  mimeType : String
  text : String
  meta : List (String × MetaValue)
deriving DecidableEq, Repr

/-- Embedding of the `ReadResourceRequestSchema` handler: look the uri up
in `widgetsByUri`; unknown uri throws; known uri returns the pre-rendered
markup and the metadata block. -/
def readResource (widgetMetas : List WidgetMeta) (uri : String) :
    Except String (List ResourceContent) :=
  match mapGet (widgetsByUri widgetMetas) uri with
  | none => .error ("Unknown resource: " ++ uri)
  | some widgetMeta =>
      let widget := widgetMeta.definition
      .ok [{ uri := widgetMeta.templateUri
             mimeType := "text/html+skybridge"
             text := widgetMeta.html
             meta := generateWidgetMetaCall widget.component widget.title
               (widget.meta.bind MetaBlock.invoking) (widget.meta.bind MetaBlock.invoked)
               (widget.meta.bind MetaBlock.widgetDescription) widget.csp widget.widgetDomain }]

/-- One content block of a call-tool response (`type` and `text`). -/
structure ContentBlock where
  type : String
  text : String

/-- A successful call-tool response envelope. -/
structure CallToolResponse where
  content : List ContentBlock
  structuredContent : Option Json
  meta : List (String × MetaValue)

/-- Outcome of one call-tool dispatch: the protocol result plus how many
times the widget's external handler was invoked. -/
structure CallToolOutcome where
  result : Except String CallToolResponse
  handlerCalls : Nat

/-- Embedding of the `CallToolRequestSchema` handler: look up the widget by
name (unknown name throws), substitute `{}` for missing `arguments`,
validate via `schema.parse` (a validation failure throws before the
external handler runs), invoke the handler, and shape the response. The
source's `catch` block rethrows, so it does not change the outcome. -/
def callTool (widgetMetas : List WidgetMeta) (name : String) (arguments : Option Json) :
    CallToolOutcome :=
  match mapGet (widgetsByComponent widgetMetas) name with
  | none => { result := .error ("Unknown tool: " ++ name), handlerCalls := 0 }
  | some widgetMeta =>
      let widget := widgetMeta.definition
      match widget.schema with
      | none => { result := .error "TypeError: cannot read parse of undefined", handlerCalls := 0 }
      | some s =>
          match s.parse (arguments.getD (Json.obj [])) with
          | .error e => { result := .error e, handlerCalls := 0 }
          | .ok args =>
              match widget.handler with
              | none =>
                  { result := .error "TypeError: widget.handler is not a function"
                    handlerCalls := 0 }
              | some h =>
                  match h args with
                  | .error e => { result := .error e, handlerCalls := 1 }
                  | .ok r =>
                      { result := .ok
                          { content := [{ type := "text", text := r.text }]
                            structuredContent := r.data
                            meta := generateWidgetMetaCall widget.component widget.title
                              (widget.meta.bind MetaBlock.invoking)
                              (widget.meta.bind MetaBlock.invoked)
                              (widget.meta.bind MetaBlock.widgetDescription)
                              widget.csp widget.widgetDomain }
                        handlerCalls := 1 }

/-! ## The session manager

Embedding of `handleSseRequest`, the `onclose` / `onerror` callbacks it
registers, and `handlePostMessage`. The session table maps session ids to
router (Server) instances, identified here by numeric ids; `closedServers`
records every router on which `server.close()` has been called. -/

/-- The mutable state of the session manager. -/
structure SessionTableState where
  sessions : List (String × Nat)
  closedServers : List Nat
deriving DecidableEq, Repr

/-- The `transport.onclose` callback: delete the session from the table and
close the bound router. -/
def sseOnClose (st : SessionTableState) (sessionId : String) (serverId : Nat) :
    SessionTableState :=
  { sessions := mapDelete st.sessions sessionId
    closedServers := serverId :: st.closedServers }

/-- The `transport.onerror` callback: it only logs the error; no session
removal and no router teardown happen here. -/
def sseOnError (st : SessionTableState) : SessionTableState := st

/-- Embedding of `handleSseRequest`: create a router and transport, store
the session, then attempt `server.connect(transport)`. On connect failure
(`connectOk = false`) the catch block deletes the session from the table —
but does not call `server.close()`. -/
def handleSseRequest (st : SessionTableState) (sessionId : String) (serverId : Nat)
    (connectOk : Bool) : SessionTableState :=
  let st1 : SessionTableState := { st with sessions := mapSet st.sessions sessionId serverId }
  if connectOk then st1
  else { st1 with sessions := mapDelete st1.sessions sessionId }

/-- HTTP-level outcome of a POST to the message endpoint. -/
inductive PostResponse where
  | badRequest (body : String)
  | notFound (body : String)
  | delegated
  | serverErrorResp (body : String)
deriving DecidableEq, Repr

/-- Embedding of `handlePostMessage`: 400 when the `sessionId` query
parameter is missing, 404 ("Unknown session") when it names no live
session, otherwise delegate to the session transport (`delegated`; a throw
there becomes a 500). The session table is returned alongside the response;
no branch mutates it. -/
def handlePostMessage (st : SessionTableState) (sessionId : Option String)
    (deliverOk : Bool) : PostResponse × SessionTableState :=
  match sessionId with
  | none => (.badRequest "Missing sessionId query parameter", st)
  | some sid =>
      match mapGet st.sessions sid with
      | none => (.notFound "Unknown session", st)
      | some _ =>
          (if deliverOk then .delegated else .serverErrorResp "Failed to process message", st)

/-! ## The static asset gateway

Embedding of the `/assets/` branch of the HTTP entry point. Paths are
modelled as absolute component lists rendered with `/` separators
(POSIX `path.sep`); `path.resolve` is the usual normalization that
collapses `.` and `..` segments. The filesystem is a parameter. -/

/-- Split a character list on a separator (semantics of JavaScript
`String.prototype.split` with a one-character separator). -/
def splitChars (sep : Char) : List Char → List (List Char)
  | [] => [[]]
  | c :: rest =>
      let tail := splitChars sep rest
      if c = sep then [] :: tail
      else
        match tail with
        | [] => [[c]]
        | t :: ts => (c :: t) :: ts

/-- Split a path string on `/`. -/
def splitPath (s : String) : List String :=
  (splitChars '/' s.data).map (fun cs => ⟨cs⟩)

/-- JavaScript `s.startsWith(pre)`. -/
def jsStartsWith (s pre : String) : Bool := pre.data.isPrefixOf s.data

/-- Normalize path components: drop empties and `.`, pop on `..` (staying
at the root when already there), as `path.resolve` does. -/
def normalizeComponents (comps : List String) : List String :=
  comps.foldl
    (fun acc c =>
      if c = "" ∨ c = "." then acc
      else if c = ".." then acc.dropLast
      else acc ++ [c])
    []

/-- Model of `path.resolve(base, relativePath)` for an absolute,
already-normalized base given as components. -/
def resolvePath (baseComps : List String) (relativePath : String) : List String :=
  if jsStartsWith relativePath "/" then normalizeComponents (splitPath relativePath)
  else normalizeComponents (baseComps ++ splitPath relativePath)

/-- Render absolute path components as a string. -/
def renderPath (comps : List String) : String :=
  "/" ++ String.intercalate "/" comps

/-- The containment check of the asset gateway, exactly as in the source:
serving is allowed only when the resolved path starts with the base
directory followed by the separator, or equals the base directory. -/
def assetPathAllowed (assetsDirStr filePath : String) : Bool :=
  jsStartsWith filePath (assetsDirStr ++ "/") || filePath == assetsDirStr

/-- What a path names on disk. -/
inductive FsEntry where
  | file
  | directory
deriving DecidableEq, Repr

/-- The filesystem, as seen through `existsSync` / `statSync`. -/
def FileSystem : Type := String → Option FsEntry

/-- Request method for the asset path family. -/
inductive HttpMethod where
  | GET
  | POST
  | OPTIONS
deriving DecidableEq, Repr

/-- HTTP-level outcome of an asset request. -/
inductive AssetResponse where
  | notFound
  | noContent
  | okFile (path : String) (contentType : String)
deriving DecidableEq, Repr

/-- The gateway's extension-to-content-type table. -/
def mimeTypes : List (String × String) :=
  [(".js", "application/javascript"), (".css", "text/css"), (".html", "text/html"),
   (".json", "application/json"), (".map", "application/json"), (".png", "image/png"),
   (".jpg", "image/jpeg"), (".jpeg", "image/jpeg"), (".svg", "image/svg+xml"),
   (".webp", "image/webp")]

/-- Model of `path.extname`: the suffix of the final component from its
last dot, empty for dotless names and for a bare leading-dot name. -/
def extnameOf (path : String) : String :=
  let base := (splitPath path).getLastD ""
  let parts := (splitChars '.' base.data).map (fun cs => (⟨cs⟩ : String))
  if parts.length ≤ 1 ∨ (parts.length = 2 ∧ parts.headD "" = "") then ""
  else "." ++ parts.getLastD ""

/-- Embedding of the `/assets/` branch of the HTTP request handler: empty
relative path → 404; resolve against the base directory; 404 unless the
containment check passes and the path exists; OPTIONS → 204; directory →
404; otherwise 200 with the content type inferred from the extension. -/
def serveAsset (fs : FileSystem) (assetsDirComps : List String) (method : HttpMethod)
    (relativePath : String) : AssetResponse :=
  if relativePath = "" then .notFound
  else
    let assetsDirStr := renderPath assetsDirComps
    let filePath := renderPath (resolvePath assetsDirComps relativePath)
    if ¬ assetPathAllowed assetsDirStr filePath ∨ (fs filePath).isNone then .notFound
    else if method = .OPTIONS then .noContent
    else
      match fs filePath with
      | some .directory => .notFound
      | _ => .okFile filePath ((mapGet mimeTypes (extnameOf filePath)).getD
          "application/octet-stream")

/-! ## Helper lemmas -/

/-- Deleting a key from the session table makes lookups of that key fail. -/
theorem mapGet_mapDelete {α : Type} (m : List (String × α)) (k : String) :
    mapGet (mapDelete m k) k = none := by
  unfold mapGet mapDelete
  have h : (m.filter (fun p => p.1 != k)).find? (fun p => p.1 == k) = none := by
    rw [List.find?_eq_none]
    intro p hp
    have h2 := List.of_mem_filter hp
    simpa using h2
  rw [h]
  rfl

/-! ## Claim C1: asset path containment -/

/-- C1: for every GET on `/assets/<relativePath>`, if the resolved absolute
path neither equals the assets base directory nor starts with it followed
by the path separator, the gateway responds 404 and never serves file
contents — for any filesystem, so in particular for traversal targets that
exist outside the base directory. -/
theorem C1_asset_containment (fs : FileSystem) (assetsDirComps : List String)
    (relativePath : String)
    (hblocked : assetPathAllowed (renderPath assetsDirComps)
      (renderPath (resolvePath assetsDirComps relativePath)) = false) :
    serveAsset fs assetsDirComps .GET relativePath = .notFound ∧
    ∀ p ct, serveAsset fs assetsDirComps .GET relativePath ≠ .okFile p ct := by
  have hserve : serveAsset fs assetsDirComps .GET relativePath = .notFound := by
    unfold serveAsset
    by_cases hempty : relativePath = ""
    · simp [hempty]
    · simp [hempty, hblocked]
  refine ⟨hserve, fun p ct hcontra => ?_⟩
  rw [hserve] at hcontra
  exact AssetResponse.noConfusion hcontra

/-- A demonstration filesystem: `/etc/passwd` exists as a file outside the
base directory `/app/assets`. -/
def demoFs : FileSystem := fun p =>
  if p = "/etc/passwd" then some .file
  else if p = "/app/assets" then some .directory
  else if p = "/app/assets/widget-9252.js" then some .file
  else none

/-- Witness for C1: the traversal request `GET
/assets/../../etc/passwd` resolves to `/etc/passwd`, fails the containment
check, and yields 404 even though that file exists. -/
theorem C1_witness :
    assetPathAllowed (renderPath ["app", "assets"])
      (renderPath (resolvePath ["app", "assets"] "../../etc/passwd")) = false ∧
    demoFs "/etc/passwd" = some .file ∧
    serveAsset demoFs ["app", "assets"] .GET "../../etc/passwd" = .notFound :=
  ⟨by decide, by decide,
   (C1_asset_containment demoFs ["app", "assets"] "../../etc/passwd" (by decide)).1⟩

/-! ## Claim C4: session cleanup triggers (corrected) -/

/-- The state after one session "session-1" (router id 0) has been opened
successfully. -/
def sessionStateOpen : SessionTableState := handleSseRequest ⟨[], []⟩ "session-1" 0 true

/-- Counterexample to C4 as stated: a transport error removes nothing and
tears nothing down (the `onerror` callback only logs), and on a handshake
failure the session is deleted but `server.close()` is never called, so the
router is not torn down. -/
theorem C4_counterexample :
    mapGet (sseOnError sessionStateOpen).sessions "session-1" = some 0 ∧
    (sseOnError sessionStateOpen).closedServers = [] ∧
    0 ∉ (handleSseRequest ⟨[], []⟩ "session-1" 0 false).closedServers := by
  decide

/-- C4 amended: on transport close the session is removed from the table
and its router is closed; on a handshake (connect) failure the session is
removed but the router is not closed; a transport error by itself performs
no cleanup at all. -/
theorem C4_amended_cleanup (st : SessionTableState) (sessionId : String) (serverId : Nat) :
    (mapGet (sseOnClose st sessionId serverId).sessions sessionId = none ∧
      serverId ∈ (sseOnClose st sessionId serverId).closedServers) ∧
    (mapGet (handleSseRequest st sessionId serverId false).sessions sessionId = none ∧
      (handleSseRequest st sessionId serverId false).closedServers = st.closedServers) ∧
    sseOnError st = st := by
  refine ⟨⟨mapGet_mapDelete _ _, by simp [sseOnClose]⟩, ⟨?_, rfl⟩, rfl⟩
  simpa [handleSseRequest] using mapGet_mapDelete (mapSet st.sessions sessionId serverId) sessionId

/-! ## Claim C8: POST message endpoint rejections -/

/-- C8: a POST with no `sessionId` query parameter is answered 400, a POST
naming no live session is answered 404 "Unknown session", and in both
rejection cases the session table is returned unchanged. -/
theorem C8_post_rejections (st : SessionTableState) (deliverOk : Bool) :
    handlePostMessage st none deliverOk =
      (.badRequest "Missing sessionId query parameter", st) ∧
    (∀ sid : String, mapGet st.sessions sid = none →
      handlePostMessage st (some sid) deliverOk = (.notFound "Unknown session", st)) := by
  refine ⟨rfl, fun sid h => ?_⟩
  simp [handlePostMessage, h]

/-- Witness for C8 at a live table: the id "other" names no session, the
POST is rejected 404 with the table unchanged, and a missing id gives 400. -/
theorem C8_witness :
    mapGet sessionStateOpen.sessions "other" = none ∧
    handlePostMessage sessionStateOpen (some "other") true =
      (.notFound "Unknown session", sessionStateOpen) ∧
    handlePostMessage sessionStateOpen none true =
      (.badRequest "Missing sessionId query parameter", sessionStateOpen) :=
  ⟨by decide, (C8_post_rejections sessionStateOpen true).2 "other" (by decide),
   (C8_post_rejections sessionStateOpen true).1⟩

/-! ## Claim C9: missing call-tool arguments default to the empty object -/

/-- C9: `request.params.arguments ?? {}` — a call-tool dispatch with absent
arguments is, for every widget table and tool name, the very same
computation as one with an explicit empty object, so it succeeds or fails
exactly as `arguments: {}` would. -/
theorem C9_default_empty_arguments (widgetMetas : List WidgetMeta) (name : String) :
    callTool widgetMetas name none = callTool widgetMetas name (some (Json.obj [])) := rfl

/-! ## Claim C3: validation failure never invokes the handler -/

/-- C3: whenever the named widget's schema rejects the (defaulted)
arguments, call-tool fails with that validation error and the external
handler is not invoked (the handler call count is 0). -/
theorem C3_validation_blocks_handler (widgetMetas : List WidgetMeta) (name : String)
    (arguments : Option Json) (widgetMeta : WidgetMeta) (s : ZodSchema) (e : String)
    (hfound : mapGet (widgetsByComponent widgetMetas) name = some widgetMeta)
    (hschema : widgetMeta.definition.schema = some s)
    (hparse : s.parse (arguments.getD (Json.obj [])) = .error e) :
    callTool widgetMetas name arguments = { result := .error e, handlerCalls := 0 } := by
  simp [callTool, hfound, hschema, hparse]

/-- A parse function that requires a `zipCode` field on an object input. -/
def parseRequireZip : Json → Except String Json := fun j =>
  match j with
  | Json.obj fields =>
      if (fields.map Prod.fst).contains "zipCode" then .ok j
      else .error "Required field missing: zipCode"
  | _ => .error "Expected object"

/-- A plans-lookup widget whose schema rejects inputs without `zipCode`. -/
def widgetGetPlans : WidgetDefinition :=
  { component := "get-plans"
    title := "Texas Energy Plans"
    description := some "Find retail energy plans"
    htmlSrc := none
    cssSrc := none
    rootElement := none
    schema := some { ast := Zod.zodObject none [("zipCode", Zod.zodString none)]
                     parse := parseRequireZip }
    handler := some (fun _ => .ok { text := "plans", data := none })
    meta := none
    annotations := none
    csp := none
    widgetDomain := none }

/-- The compiled metadata table for the plans widget. -/
def demoWidgetMetas : List WidgetMeta :=
  [buildWidgetMeta (processWidget "http://localhost:4444" "9252" widgetGetPlans)]

/-- Witness for C3: a call-tool request whose arguments lack `zipCode`
fails with the validation error and leaves the handler call count at 0. -/
theorem C3_witness :
    callTool demoWidgetMetas "get-plans" (some (Json.obj [("usage", Json.num 1000)])) =
      { result := .error "Required field missing: zipCode", handlerCalls := 0 } :=
  C3_validation_blocks_handler demoWidgetMetas "get-plans"
    (some (Json.obj [("usage", Json.num 1000)]))
    (buildWidgetMeta (processWidget "http://localhost:4444" "9252" widgetGetPlans))
    { ast := Zod.zodObject none [("zipCode", Zod.zodString none)], parse := parseRequireZip }
    "Required field missing: zipCode" rfl rfl rfl

/-! ## Claim C5: annotations / csp / widgetDomain pass-through (corrected)

`generateWidgetMeta` declares five parameters; the call-sites pass
`widget.csp` and `widget.widgetDomain` as sixth and seventh arguments,
which JavaScript discards. So while `annotations` does reach the tool
descriptor verbatim, `csp` and `widgetDomain` reach nothing. -/

/-- A widget definition without csp/widgetDomain. -/
def widgetKaka : WidgetDefinition :=
  { component := "kaka-haha"
    title := "Kaka Haha"
    description := none
    htmlSrc := none
    cssSrc := none
    rootElement := none
    schema := some { ast := Zod.zodObject none [], parse := fun j => .ok j }
    handler := some (fun _ => .ok { text := "hi", data := none })
    meta := none
    annotations := some { readOnlyHint := some true, destructiveHint := none,
                          openWorldHint := none }
    csp := none
    widgetDomain := none }

/-- The same widget definition with csp and widgetDomain supplied. -/
def widgetKakaCsp : WidgetDefinition :=
  { widgetKaka with
      csp := some { connect_domains := some ["https://api.example.com"]
                    resource_domains := none }
      widgetDomain := some "https://widgets.example.com" }

/-- Counterexample to C5 as stated: supplying `csp` and `widgetDomain`
changes nothing in the advertised tool descriptor, resource descriptor,
resource-template descriptor, or metadata block — the two values are
discarded, not passed through; in particular the supplied widgetDomain
string appears in no metadata value. -/
theorem C5_counterexample :
    widgetKakaCsp.csp ≠ widgetKaka.csp ∧
    widgetKakaCsp.widgetDomain = some "https://widgets.example.com" ∧
    widgetToTool (buildWidgetMeta widgetKakaCsp) = widgetToTool (buildWidgetMeta widgetKaka) ∧
    widgetToResource (buildWidgetMeta widgetKakaCsp) =
      widgetToResource (buildWidgetMeta widgetKaka) ∧
    widgetToResourceTemplate (buildWidgetMeta widgetKakaCsp) =
      widgetToResourceTemplate (buildWidgetMeta widgetKaka) ∧
    ((widgetToResource (buildWidgetMeta widgetKakaCsp)).meta.all
      (fun kv => kv.2 != MetaValue.str "https://widgets.example.com")) = true :=
  ⟨by decide, rfl, rfl, rfl, rfl, by decide⟩

/-- C5 amended: of the three optional fields, only `annotations` is passed
through verbatim (into the tool descriptor); the advertised descriptors are
completely independent of `csp` and `widgetDomain`, whose call arguments
are dropped by the five-parameter `generateWidgetMeta`. -/
theorem C5_amended_annotations_only (w : WidgetDefinition) (c1 c2 : Option Csp)
    (d1 d2 : Option String) :
    (∀ t : Tool, widgetToTool (buildWidgetMeta w) = .ok t → t.annotations = w.annotations) ∧
    widgetToTool (buildWidgetMeta { w with csp := c1, widgetDomain := d1 }) =
      widgetToTool (buildWidgetMeta { w with csp := c2, widgetDomain := d2 }) ∧
    widgetToResource (buildWidgetMeta { w with csp := c1, widgetDomain := d1 }) =
      widgetToResource (buildWidgetMeta { w with csp := c2, widgetDomain := d2 }) ∧
    widgetToResourceTemplate (buildWidgetMeta { w with csp := c1, widgetDomain := d1 }) =
      widgetToResourceTemplate (buildWidgetMeta { w with csp := c2, widgetDomain := d2 }) := by
  refine ⟨?_, rfl, rfl, rfl⟩
  intro t ht
  dsimp only [widgetToTool] at ht
  split at ht
  · exact Except.noConfusion ht
  · cases ht
    rfl

/-- Witness for C5 (amended): the annotations supplied on the example
widget surface verbatim on its advertised tool. -/
theorem C5_witness :
    ∃ t : Tool, widgetToTool (buildWidgetMeta widgetKaka) = .ok t ∧
      t.annotations = widgetKaka.annotations := by
  have h0 : exceptIsOk (widgetToTool (buildWidgetMeta widgetKaka)) = true := by decide
  cases ht : widgetToTool (buildWidgetMeta widgetKaka) with
  | error e => rw [ht] at h0; simp [exceptIsOk] at h0
  | ok t =>
      exact ⟨t, rfl, (C5_amended_annotations_only widgetKaka none none none none).1 t ht⟩

/-! ## Claim C10: one metadata block across all five operations -/

/-- The `ListToolsRequestSchema` handler's payload: `widgetToTool` mapped
over the compiled metadata (a missing schema would throw, as in the
source). -/
def listTools (widgetMetas : List WidgetMeta) : Except String (List Tool) :=
  widgetMetas.mapM widgetToTool

/-- The `ListResourcesRequestSchema` handler's payload. -/
def listResources (widgetMetas : List WidgetMeta) : List Resource :=
  widgetMetas.map widgetToResource

/-- The `ListResourceTemplatesRequestSchema` handler's payload. -/
def listResourceTemplates (widgetMetas : List WidgetMeta) : List ResourceTemplate :=
  widgetMetas.map widgetToResourceTemplate

/-- C10: every operation attaches the same `_meta` block for a widget (the
tool descriptor, resource descriptor, resource-template descriptor,
read-resource content, and successful call-tool response all carry the
block `(widgetToResource m).meta`), and that block always contains the
output template `ui://widget/<component>.html`, `widgetAccessible = true`,
`resultCanProduceWidget = true`, and — when the definition supplies no
phrases — the defaults "Loading <title>..." and "Loaded <title>". -/
theorem C10_meta_uniform (m : WidgetMeta) :
    (∀ t : Tool, widgetToTool m = .ok t → t.meta = (widgetToResource m).meta) ∧
    (widgetToResourceTemplate m).meta = (widgetToResource m).meta ∧
    (∀ (widgetMetas : List WidgetMeta) (uri : String),
      mapGet (widgetsByUri widgetMetas) uri = some m →
      readResource widgetMetas uri =
        .ok [{ uri := m.templateUri
               mimeType := "text/html+skybridge"
               text := m.html
               meta := (widgetToResource m).meta }]) ∧
    (∀ (widgetMetas : List WidgetMeta) (name : String) (arguments : Option Json)
        (s : ZodSchema) (hnd : Json → Except String HandlerResult) (v : Json)
        (r : HandlerResult),
      mapGet (widgetsByComponent widgetMetas) name = some m →
      m.definition.schema = some s →
      s.parse (arguments.getD (Json.obj [])) = .ok v →
      m.definition.handler = some hnd →
      hnd v = .ok r →
      callTool widgetMetas name arguments =
        { result := .ok { content := [{ type := "text", text := r.text }]
                          structuredContent := r.data
                          meta := (widgetToResource m).meta }
          handlerCalls := 1 }) ∧
    mapGet (widgetToResource m).meta "openai/outputTemplate" =
      some (.str ("ui://widget/" ++ m.definition.component ++ ".html")) ∧
    mapGet (widgetToResource m).meta "openai/widgetAccessible" = some (.bool true) ∧
    mapGet (widgetToResource m).meta "openai/resultCanProduceWidget" = some (.bool true) ∧
    (m.definition.meta.bind MetaBlock.invoking = none →
      mapGet (widgetToResource m).meta "openai/toolInvocation/invoking" =
        some (.str ("Loading " ++ m.definition.title ++ "..."))) ∧
    (m.definition.meta.bind MetaBlock.invoked = none →
      mapGet (widgetToResource m).meta "openai/toolInvocation/invoked" =
        some (.str ("Loaded " ++ m.definition.title))) := by
  refine ⟨?_, rfl, ?_, ?_, rfl, rfl, rfl, ?_, ?_⟩
  · intro t ht
    dsimp only [widgetToTool] at ht
    split at ht
    · exact Except.noConfusion ht
    · cases ht
      rfl
  · intro widgetMetas uri hfound
    unfold readResource
    rw [hfound]
    rfl
  · intro widgetMetas name arguments s hnd v r hfound hschema hparse hhnd hr
    simp [callTool, hfound, hschema, hparse, hhnd, hr, widgetToResource,
      generateWidgetMetaCall]
  · intro h
    simp [widgetToResource, generateWidgetMetaCall, generateWidgetMeta, mapGet, h, orDefault]
  · intro h
    simp [widgetToResource, generateWidgetMetaCall, generateWidgetMeta, mapGet, h, orDefault]

/-- The compiled metadata table for the kaka-haha widget. -/
def kakaMetas : List WidgetMeta := [buildWidgetMeta widgetKaka]

/-- Witness for C10: on the kaka-haha widget, the resource-template block
equals the resource block, read-resource and a successful call-tool attach
that same block, and the default invoking phrase appears. -/
theorem C10_witness :
    (widgetToResourceTemplate (buildWidgetMeta widgetKaka)).meta =
      (widgetToResource (buildWidgetMeta widgetKaka)).meta ∧
    readResource kakaMetas "ui://widget/kaka-haha.html" =
      .ok [{ uri := (buildWidgetMeta widgetKaka).templateUri
             mimeType := "text/html+skybridge"
             text := (buildWidgetMeta widgetKaka).html
             meta := (widgetToResource (buildWidgetMeta widgetKaka)).meta }] ∧
    callTool kakaMetas "kaka-haha" none =
      { result := .ok { content := [{ type := "text", text := "hi" }]
                        structuredContent := none
                        meta := (widgetToResource (buildWidgetMeta widgetKaka)).meta }
        handlerCalls := 1 } ∧
    mapGet (widgetToResource (buildWidgetMeta widgetKaka)).meta
      "openai/toolInvocation/invoking" = some (.str "Loading Kaka Haha...") :=
  ⟨(C10_meta_uniform (buildWidgetMeta widgetKaka)).2.1,
   (C10_meta_uniform (buildWidgetMeta widgetKaka)).2.2.1 kakaMetas
     "ui://widget/kaka-haha.html" rfl,
   (C10_meta_uniform (buildWidgetMeta widgetKaka)).2.2.2.1 kakaMetas "kaka-haha" none
     { ast := Zod.zodObject none [], parse := fun j => .ok j }
     (fun _ => .ok { text := "hi", data := none }) (Json.obj [])
     { text := "hi", data := none } rfl rfl rfl rfl rfl,
   (C10_meta_uniform (buildWidgetMeta widgetKaka)).2.2.2.2.2.2.2.1 rfl⟩

/-! ## Claim C6: startup configuration errors (corrected)

The constructor performs no duplicate-name check and no handler check; the
only thing that can abort startup is the schema-logging loop throwing on a
missing schema. -/

/-- `all` over a mapped list tests the composite predicate. -/
theorem all_map_comp {α β : Type} (l : List α) (f : α → β) (p : β → Bool) :
    (l.map f).all p = l.all (fun a => p (f a)) := by
  induction l with
  | nil => rfl
  | cons a tl ih => simp [ih]

/-- The schema-check loop succeeds exactly when every widget has a schema. -/
theorem checkSchemas_ok_iff (widgetMetas : List WidgetMeta) :
    exceptIsOk (checkSchemas widgetMetas) =
      widgetMetas.all (fun m => m.definition.schema.isSome) := by
  induction widgetMetas with
  | nil => rfl
  | cons m rest ih =>
      cases h : m.definition.schema with
      | none => simp [checkSchemas, zodToJsonSchemaJs, h, exceptIsOk]
      | some s => simp [checkSchemas, zodToJsonSchemaJs, h, ih]

/-- A configuration with a duplicated component name and a widget that has
no handler (but both widgets carry a schema). -/
def cfgDupMissingHandler : ServerConfig :=
  { name := "energy-mcp"
    version := "1.0.0"
    widgets := [{ widgetKaka with component := "dup", handler := none },
                { widgetKaka with component := "dup" }]
    port := none
    ssePath := none
    postPath := none
    frontendUrl := none }

/-- Counterexample to C6 as stated: a widget list with a duplicate
component name and a missing handler passes the constructor without error —
neither condition is detected at startup. -/
theorem C6_counterexample :
    cfgDupMissingHandler.widgets.map (fun w => w.component) = ["dup", "dup"] ∧
    (cfgDupMissingHandler.widgets.headD widgetKaka).handler.isNone = true ∧
    exceptIsOk (widgetServerInit cfgDupMissingHandler) = true := by
  refine ⟨by decide, by decide, by decide⟩

/-- C6 amended: the constructor fails at startup exactly when some widget
definition is missing its `schema` (the debug logging loop throws on it);
duplicate component names and missing handlers are not startup errors — the
constructor succeeds and the server goes on to accept connections. -/
theorem C6_amended_schema_only (config : ServerConfig) :
    exceptIsOk (widgetServerInit config) =
      config.widgets.all (fun w => w.schema.isSome) := by
  dsimp only [widgetServerInit]
  have h := checkSchemas_ok_iff
    ((config.widgets.map (processWidget (config.frontendUrl.getD "http://localhost:4444")
      (generateAssetHash config.version))).map buildWidgetMeta)
  split
  · next e heq =>
      rw [heq] at h
      rw [all_map_comp, all_map_comp] at h
      exact h
  · next u heq =>
      rw [heq] at h
      rw [all_map_comp, all_map_comp] at h
      exact h

/-! ## Claim C2: the `required` list (corrected)

The unwrap loop marks a field optional for `ZodOptional`/`ZodNullable`
layers, but a `ZodDefault` layer is peeled without setting the flag, so a
defaulted field stays in `required`. -/

/-- Whether some unwrap step of this schema is an optionality or
nullability layer (the only layers the translator's `isOptional` flag
records). -/
def hasOptionalLayer : Zod → Bool
  | .zodOptional _ _ => true
  | .zodNullable _ _ => true
  | .zodDefault _ t => hasOptionalLayer t
  | .zodEffects _ t => hasOptionalLayer t
  | _ => false

/-- The unwrap loop's `isOptional` output is the incoming flag joined with
`hasOptionalLayer`. -/
theorem unwrapField_isOptional :
    ∀ (z : Zod) (d : Option String) (b : Bool),
      (unwrapField z d b).2.2 = (b || hasOptionalLayer z)
  | .zodString _, _, b => by simp [unwrapField, hasOptionalLayer]
  | .zodNumber _, _, b => by simp [unwrapField, hasOptionalLayer]
  | .zodBoolean _, _, b => by simp [unwrapField, hasOptionalLayer]
  | .zodArray _, _, b => by simp [unwrapField, hasOptionalLayer]
  | .zodObject _ _, _, b => by simp [unwrapField, hasOptionalLayer]
  | .zodOptional d0 t, d, b => by
      simp [unwrapField, hasOptionalLayer, unwrapField_isOptional t _ true]
  | .zodNullable d0 t, d, b => by
      simp [unwrapField, hasOptionalLayer, unwrapField_isOptional t _ true]
  | .zodDefault d0 t, d, b => by
      simp [unwrapField, hasOptionalLayer, unwrapField_isOptional t _ b]
  | .zodEffects d0 t, d, b => by
      simp [unwrapField, hasOptionalLayer, unwrapField_isOptional t _ b]
  | .zodOther _ _, _, b => by simp [unwrapField, hasOptionalLayer]

/-- The `required` list the translator accumulates is exactly the keys of
the fields with no optional/nullable layer, in field order. -/
theorem translateFields_required (shape : List (String × Zod)) :
    (translateFields shape).2 =
      (shape.filter (fun kv => !hasOptionalLayer kv.2)).map Prod.fst := by
  induction shape with
  | nil => rfl
  | cons hd tl ih =>
      obtain ⟨key, value⟩ := hd
      simp only [translateFields, unwrapField_isOptional, Bool.false_or, List.filter_cons]
      cases h : hasOptionalLayer value with
      | true => simp [h, ih]
      | false => simp [h, ih]

/-- Membership in the key list of a filtered association list, for a list
with no duplicate keys. -/
theorem mem_filtered_keys_iff {p : String × Zod → Bool} (shape : List (String × Zod))
    (key : String) (z : Zod)
    (hnd : (shape.map Prod.fst).Nodup) (hmem : (key, z) ∈ shape) :
    key ∈ (shape.filter p).map Prod.fst ↔ p (key, z) = true := by
  constructor
  · intro hin
    obtain ⟨kv, hkvf, hkey⟩ := List.mem_map.mp hin
    obtain ⟨hkvmem, hpkv⟩ := List.mem_filter.mp hkvf
    have hkv : kv = (key, z) := by
      apply List.inj_on_of_nodup_map hnd hkvmem hmem
      simpa using hkey
    rw [hkv] at hpkv
    exact hpkv
  · intro hp
    exact List.mem_map.mpr ⟨(key, z), List.mem_filter.mpr ⟨hmem, hp⟩, rfl⟩

/-- The example schema of the claim: `a` a plain string, `b` an optional
number, `c` a defaulted boolean. -/
def exampleSchemaC2 : Zod :=
  .zodObject none
    [("a", .zodString none),
     ("b", .zodOptional none (.zodNumber none)),
     ("c", .zodDefault none (.zodBoolean none))]

/-- Counterexample to C2 as stated: the defaulted field `c` is listed in
`required`, so the output is `["a", "c"]`, not the claimed `["a"]`. -/
theorem C2_counterexample :
    (zodToJsonSchema exampleSchemaC2).required = some ["a", "c"] ∧
    (zodToJsonSchema exampleSchemaC2).required ≠ some ["a"] := by
  decide

/-- C2 amended: for an object schema whose field names are distinct, a
property appears in `required` iff its schema has no optional or nullable
layer at any depth — a defaulted (or coerced) layer is unwrapped without
marking the field optional, so a defaulted field stays required. On the
example `{a: string, b: optional number, c: defaulted boolean}` the output
is `required = ["a", "c"]` with coarse property types string, number and
boolean. -/
theorem C2_amended_required_iff :
    (∀ (d : Option String) (shape : List (String × Zod)) (key : String) (z : Zod)
        (req : List String),
      (shape.map Prod.fst).Nodup → (key, z) ∈ shape →
      (zodToJsonSchema (.zodObject d shape)).required = some req →
      (key ∈ req ↔ hasOptionalLayer z = false)) ∧
    (zodToJsonSchema exampleSchemaC2).required = some ["a", "c"] ∧
    (zodToJsonSchema exampleSchemaC2).properties =
      [("a", { type := "string", description := none }),
       ("b", { type := "number", description := none }),
       ("c", { type := "boolean", description := none })] := by
  refine ⟨?_, by decide, by decide⟩
  intro d shape key z req hnd hmem hreq
  have hreq2 : (translateFields shape).2 = req := by
    simpa [zodToJsonSchema] using hreq
  rw [← hreq2, translateFields_required]
  rw [mem_filtered_keys_iff shape key z hnd hmem]
  cases hz : hasOptionalLayer z with
  | true => simp
  | false => simp

/-- Witness for C2 (amended): on the example schema, the iff instantiates
to membership facts for the plain field `a` and the optional field `b`. -/
theorem C2_witness :
    ("a" ∈ ["a", "c"] ↔ hasOptionalLayer (Zod.zodString none) = false) ∧
    ("b" ∈ ["a", "c"] ↔ hasOptionalLayer (Zod.zodOptional none (Zod.zodNumber none)) = false) :=
  ⟨C2_amended_required_iff.1 none
      [("a", .zodString none), ("b", .zodOptional none (.zodNumber none)),
       ("c", .zodDefault none (.zodBoolean none))]
      "a" (.zodString none) ["a", "c"] (by decide)
      (List.mem_cons_self _ _) (by decide),
   C2_amended_required_iff.1 none
      [("a", .zodString none), ("b", .zodOptional none (.zodNumber none)),
       ("c", .zodDefault none (.zodBoolean none))]
      "b" (.zodOptional none (.zodNumber none)) ["a", "c"] (by decide)
      (List.mem_cons_of_mem _ (List.mem_cons_self _ _)) (by decide)⟩

/-! ## Claim C7: the asset hash -/

/-- Processing a chunk always yields the eight hash words. -/
theorem processChunk_length (hs chunk : List Nat) : (processChunk hs chunk).length = 8 := rfl

/-- Folding chunk processing preserves the eight-word state. -/
theorem foldl_processChunk_length (chunks : List (List Nat)) :
    ∀ hs : List Nat, hs.length = 8 → (chunks.foldl processChunk hs).length = 8 := by
  induction chunks with
  | nil => intro hs h; simpa using h
  | cons c tl ih => intro hs _; exact ih _ (processChunk_length hs c)

/-- `toBytesBE` produces exactly `n` bytes. -/
theorem toBytesBE_length (n x : Nat) : (toBytesBE n x).length = n := by
  simp [toBytesBE]

/-- Summing a constant over a list multiplies it by the length. -/
theorem sum_map_const_nat {α : Type} (l : List α) (c : Nat) :
    (l.map (fun _ => c)).sum = c * l.length := by
  induction l with
  | nil => simp
  | cons a tl ih => simp [ih, Nat.mul_succ, Nat.add_comm, Nat.mul_comm]

/-- A SHA-256 digest is 32 bytes. -/
theorem sha256Bytes_length (msg : List Nat) : (sha256Bytes msg).length = 32 := by
  unfold sha256Bytes
  rw [List.length_flatten, List.map_map]
  have h : (List.length ∘ toBytesBE 4) = fun _ : Nat => 4 :=
    funext (fun x => toBytesBE_length 4 x)
  rw [h, sum_map_const_nat,
    foldl_processChunk_length (sha256Chunks (padMessage msg)) sha256InitH rfl]

/-- The hex digest is 64 characters. -/
theorem sha256Hex_data_length (s : String) : (sha256Hex s).data.length = 64 := by
  show (((sha256Bytes (stringToBytes s)).map byteToHex).flatten).length = 64
  rw [List.length_flatten, List.map_map]
  have h : (List.length ∘ byteToHex) = fun _ : Nat => 2 := funext (fun b => rfl)
  rw [h, sum_map_const_nat, sha256Bytes_length]

/-- Every hex digit character is drawn from the sixteen-character hex
alphabet (the out-of-range default `'0'` is also in it). -/
theorem hexDigit_mem (n : Nat) : hexDigit n ∈ hexCharList := by
  by_cases h : n < 16
  · interval_cases n <;> decide
  · have hlen : hexCharList.length ≤ n := by
      have h16 : hexCharList.length = 16 := rfl
      omega
    rw [hexDigit, List.getD_eq_default _ _ hlen]
    decide

/-- Every character of the asset hash is a lowercase hex digit. -/
theorem generateAssetHash_chars (version : String) :
    ∀ c ∈ (generateAssetHash version).data, c ∈ hexCharList := by
  intro c hc
  have hc2 : c ∈ (sha256Hex version).data := by
    have hdata : (generateAssetHash version).data = (sha256Hex version).data.take 4 := rfl
    rw [hdata] at hc
    exact List.take_subset _ _ hc
  have hflat : (sha256Hex version).data =
      ((sha256Bytes (stringToBytes version)).map byteToHex).flatten := rfl
  rw [hflat] at hc2
  obtain ⟨l, hl, hcl⟩ := List.mem_flatten.mp hc2
  obtain ⟨b, _, rfl⟩ := List.mem_map.mp hl
  simp only [byteToHex, List.mem_cons, List.not_mem_nil, or_false] at hcl
  rcases hcl with rfl | rfl
  · exact hexDigit_mem _
  · exact hexDigit_mem _

/-- C7: the asset hash is the first four hex characters of the SHA-256
digest of the version string; it always has exactly four characters, all
lowercase hex digits, and it is a deterministic function of the version
alone. -/
theorem C7_asset_hash (version : String) :
    generateAssetHash version = sliceFour (sha256Hex version) ∧
    (generateAssetHash version).length = 4 ∧
    (∀ c ∈ (generateAssetHash version).data, c ∈ hexCharList) ∧
    (∀ v : String, v = version → generateAssetHash v = generateAssetHash version) := by
  refine ⟨rfl, ?_, generateAssetHash_chars version, fun v hv => hv ▸ rfl⟩
  show ((sha256Hex version).data.take 4).length = 4
  rw [List.length_take, sha256Hex_data_length]
  omega

/-- Witness for C7 at version "1.0.0" (whose digest begins 9252...): the
hash has four characters, repeated calls agree, and its first character is
a hex digit. -/
theorem C7_witness :
    (generateAssetHash "1.0.0").length = 4 ∧
    generateAssetHash "1.0.0" = generateAssetHash "1.0.0" ∧
    '9' ∈ hexCharList :=
  ⟨(C7_asset_hash "1.0.0").2.1,
   (C7_asset_hash "1.0.0").2.2.2 "1.0.0" rfl,
   (C7_asset_hash "1.0.0").2.2.1 '9' (by decide)⟩

/-- Sanity check: the compiled asset hash of version "1.0.0". -/
theorem generateAssetHash_v100 : generateAssetHash "1.0.0" = "9252" := by decide
